import Mathlib

/-!
Verification development for the SPI UART transport engine (`source/uart.c`).

The module's state is the set of static variables of `uart.c`; each C function
that the claims touch is embedded as a pure Lean function on that state.
Machine integers (`uint16`, `uint32`) stay far below their wrap-around points
in every scenario treated here, so they are modelled as `Nat`; the `out` byte
array is modelled as a total memory function `Int → Nat` because
`uart_write_prio` computes (possibly negative) raw offsets into it, while the
`in` array is only ever accessed inside its logical region and is modelled as
the list of its first `in_size` cells.
-/

set_option maxRecDepth 8192

namespace Uart

/-- `#define UART_FIFO_BLOCK_SIZE 8` — bytes purged at once from a full in-buffer. -/
def UART_FIFO_BLOCK_SIZE : Nat := 8

/-- `#define UART_IN_EMERG 8` — emergency margin of the in-buffer. -/
def UART_IN_EMERG : Nat := 8

/-- `#define UART_IN_SIZE 256` — capacity of the in-buffer. -/
def UART_IN_SIZE : Nat := 256

/-- `#define UART_OUT_EMERG 4` — emergency margin of the out-buffer. -/
def UART_OUT_EMERG : Nat := 4

/-- `#define UART_OUT_SIZE 256` — capacity of the out-buffer. -/
def UART_OUT_SIZE : Nat := 256

/-- `#define UART_TIMER_OFF 0xFF` — timer value meaning "no timer / closed". -/
def UART_TIMER_OFF : Nat := 0xFF

/-- Copy `n` cells starting at `src` to `dst` in memory `m` (C `memmove`:
the source region is read as a snapshot, so overlap behaves like `memmove`). -/
def memMove (m : Int → Nat) (dst src : Int) (n : Nat) : Int → Nat :=
  fun i => if dst ≤ i ∧ i < dst + n then m (src + (i - dst)) else m i

/-- Write the bytes of `xs` at `dst` in memory `m` (C `memcpy` from a buffer). -/
def memWrite (m : Int → Nat) (dst : Int) (xs : List Nat) : Int → Nat :=
  fun i => if dst ≤ i ∧ i < dst + xs.length then xs.getD (i - dst).toNat 0 else m i

/-- The static state of `uart.c`: both buffers, the priority-frame
bookkeeping, the watermark configuration and latch, the escape flag of
`do_spi`, and the timer.  `destMem` is the memory behind the caller-supplied
`prio_dest` pointer (meaningful when `prio_dest = true`, i.e. non-NULL). -/
structure UartState where
  inBuf : List Nat
  outMem : Int → Nat
  out_head : Nat
  out_size : Nat
  prio_dest : Bool
  destMem : Nat → Nat
  prio_head : Nat
  prio_irq_bytes : Nat
  prio_size : Nat
  water_high : Nat
  water_low : Nat
  water_send : Bool
  got_esc : Bool
  timer : Nat
  timerOn : Bool

/-- The logical content of the out-buffer: cells `[0, out_size)`. -/
def outContent (s : UartState) : List Nat :=
  (List.range s.out_size).map (fun i => s.outMem i)

/-- `timer_start()`: enable the timer when one is registered. -/
def timer_start (s : UartState) : UartState :=
  if s.timer ≠ UART_TIMER_OFF then { s with timerOn := true } else s

/-- `timer_stop()`: disable the timer when one is registered. -/
def timer_stop (s : UartState) : UartState :=
  if s.timer ≠ UART_TIMER_OFF then { s with timerOn := false } else s

/-- `uart_write_prio(buf, size, dest, irq_bytes)` (uart.c:516-549): reject a
frame longer than the whole out-buffer, otherwise move the untransmitted
bytes up by `size` cells (in the overflow case the source offset is the C
expression `out_size - UART_OUT_SIZE + UART_OUT_EMERG - size`, evaluated in
`Int` because it can be negative), copy the frame to offset 0, and install
the new priority bookkeeping.  `dest = true` models a non-NULL reply pointer. -/
def uart_write_prio (s : UartState) (buf : List Nat) (dest : Bool)
    (irq_bytes : Nat) : UartState :=
  let size := buf.length
  if UART_OUT_SIZE + UART_OUT_EMERG < size then s
  else
    let m :=
      if size + s.out_size - s.out_head ≤ UART_OUT_SIZE + UART_OUT_EMERG then
        memMove s.outMem size s.out_head (s.out_size - s.out_head)
      else
        memMove s.outMem size
          ((s.out_size : Int) - (UART_OUT_SIZE : Int) + (UART_OUT_EMERG : Int) - (size : Int))
          (UART_OUT_SIZE + UART_OUT_EMERG - size)
    { s with
      outMem := memWrite m 0 buf
      out_size := size + s.out_size - s.out_head
      out_head := 0
      prio_dest := dest
      prio_head := 0
      prio_irq_bytes := irq_bytes
      prio_size := size }

/-- `send_watermark(highwater)` (uart.c:158-166): enqueue the control frame
`'\\','w',0x01/0x00` as a priority frame with no reply destination. -/
def send_watermark (s : UartState) (highwater : Bool) : UartState :=
  uart_write_prio s [92, 119, if highwater then 1 else 0] false 0

/-- The eviction-plus-append step of `do_spi` (uart.c:137-146): a full
in-buffer first loses its `UART_FIFO_BLOCK_SIZE` oldest bytes, then the new
byte is appended. -/
def inAppend (l : List Nat) (b : Nat) : List Nat :=
  (if l.length = UART_IN_SIZE then l.drop UART_FIFO_BLOCK_SIZE else l) ++ [b]

/-- The watermark evaluation and the store of `do_spi` (uart.c:125-146):
compare `in_size + 1` against each enabled watermark, fire at most one notice
per latch edge, then evict if full and append the byte. -/
def doSpiStore (s : UartState) (read : Nat) : UartState :=
  let s1 :=
    if 0 < s.water_high ∧ s.water_high ≤ s.inBuf.length + 1 ∧ s.water_send = false then
      { send_watermark s true with water_send := true }
    else s
  let s2 :=
    if 0 < s1.water_low ∧ s1.inBuf.length + 1 ≤ s1.water_low ∧ s1.water_send = true then
      { send_watermark s1 false with water_send := false }
    else s1
  { s2 with inBuf := inAppend s2.inBuf read }

/-- The framing filter of `do_spi` (uart.c:111-123): an unescaped `'\\'` is
consumed and sets the escape flag; an escaped byte is stored verbatim; an
unescaped `0x00` or `0xFF` is dropped; anything else is stored verbatim. -/
def doSpiFilter (s : UartState) (read : Nat) : UartState :=
  if s.got_esc = false ∧ read = 92 then { s with got_esc := true }
  else if s.got_esc = true then doSpiStore { s with got_esc := false } read
  else if read = 0 ∨ read = 255 then s
  else doSpiStore s read

/-- `do_spi()` (uart.c:70-147), with the byte delivered by the duplex
exchange passed in as `read`: transmit (advance `out_head` when a byte is
pending), re-arm the timer, route the byte through the priority overlay
(offsets 0-1 fall through to the filter, offsets ≥ 2 are captured into
`destMem` and consumed), otherwise run the framing filter.  The C shift
`prio_size - prio_head - 2` is undefined when `prio_head = prio_size - 1`;
here the `Nat` subtraction truncates at 0, which no claim depends on.
`sendStep` is the transmit half (uart.c:76-82): advance the cursor when an
untransmitted byte exists (a dummy `0x00` is shifted out otherwise). -/
def sendStep (s : UartState) : UartState :=
  if s.out_head < s.out_size then { s with out_head := s.out_head + 1 } else s

/-- Body of `do_spi` after the transmit step: re-arm the timer, route the
byte through the priority overlay, otherwise run the framing filter. -/
def do_spi (s : UartState) (read : Nat) : UartState :=
  let s2 := timer_start (sendStep s)
  if s2.prio_head < s2.prio_size then
    let s3 :=
      if Nat.testBit s2.prio_irq_bytes (s2.prio_size - s2.prio_head - 2) then
        timer_stop s2
      else s2
    if s3.prio_head < 2 then
      doSpiFilter { s3 with prio_head := s3.prio_head + 1 } read
    else
      if s3.prio_dest then
        { s3 with
          destMem := Function.update s3.destMem s3.prio_head read
          prio_head := s3.prio_head + 1 }
      else
        { s3 with prio_head := s3.prio_head + 1 }
  else
    doSpiFilter s2 read

/-- The escape loop of `uart_write` (uart.c:278-300): `0x00` and `'\\'` cost
two cells, everything else one; the first byte that does not fit stops the
loop; the count of accepted source bytes is returned. -/
def uart_write_loop (s : UartState) : List Nat → UartState × Nat
  | [] => (s, 0)
  | b :: rest =>
    if b = 0 ∨ b = 92 then
      if UART_OUT_SIZE < s.out_size + 2 then (s, 0)
      else
        let s' := { s with outMem := memWrite s.outMem s.out_size [92, b],
                           out_size := s.out_size + 2 }
        let r := uart_write_loop s' rest
        (r.1, r.2 + 1)
    else
      if UART_OUT_SIZE < s.out_size + 1 then (s, 0)
      else
        let s' := { s with outMem := memWrite s.outMem s.out_size [b],
                           out_size := s.out_size + 1 }
        let r := uart_write_loop s' rest
        (r.1, r.2 + 1)

/-- `uart_write(buf, size)` (uart.c:262-306): compact the already-transmitted
prefix out of the buffer, then append the escaped bytes while they fit. -/
def uart_write (s : UartState) (buf : List Nat) : UartState × Nat :=
  let s1 :=
    if 0 < s.out_head then
      { s with outMem := memMove s.outMem 0 s.out_head (s.out_size - s.out_head),
               out_size := s.out_size - s.out_head,
               out_head := 0 }
    else s
  uart_write_loop s1 buf

/-- `uart_read(dest, size)` (uart.c:343-363): drain `min size in_size` bytes
from the front of the in-buffer and return them. -/
def uart_read (s : UartState) (size : Nat) : UartState × List Nat :=
  let n := min size s.inBuf.length
  ({ s with inBuf := s.inBuf.drop n }, s.inBuf.take n)

/-- `uart_requeue(src, size)` (uart.c:427-447): refuse when the bytes would
not fit beside the unread data; otherwise shift the in-buffer up by `size`
cells (`memmove(in+size, in, in_size)`, which leaves the logical region
holding the old first `size` cells followed by the old content truncated to
fit, since `in_size` is not changed), and copy `src` over the *out* buffer
(`memcpy(out, src, size)`), growing `out_size`. -/
def uart_requeue (s : UartState) (src : List Nat) : Bool × UartState :=
  let size := src.length
  if size + s.inBuf.length ≤ UART_IN_SIZE + UART_IN_EMERG then
    (true,
      { s with
        inBuf := s.inBuf.take size ++ s.inBuf.take (s.inBuf.length - size)
        outMem := memWrite s.outMem 0 src
        out_size := s.out_size + size })
  else
    (false, s)

/-- The timeout branch of `uart_wait_prio` (uart.c:567-577), entered when the
deadline passes with `prio_head < prio_size`: set the transmit cursor to
`prio_size`, clear the priority bookkeeping, restart the timer, report
`false`. -/
def uart_wait_prio_timeout (s : UartState) : Bool × UartState :=
  (false, timer_start { s with out_head := s.prio_size, prio_size := 0, prio_head := 0 })

/-- The hardware-facing state that `uart_init` manipulates. -/
structure InitState where
  spiOn : Bool
  cardLineIrq : Bool
  timerIrqOn : Bool
  timerOn : Bool
  timer : Nat
  inittimeout : Nat
deriving DecidableEq, Repr

/-- The timer probe of `uart_init` (uart.c:224-229): the highest-numbered
free timer, or `UART_TIMER_OFF` when all four are busy. -/
def probe_timer (busy : Nat → Bool) : Nat :=
  if busy 3 = false then 3
  else if busy 2 = false then 2
  else if busy 1 = false then 1
  else if busy 0 = false then 0
  else UART_TIMER_OFF

/-- The version-probe loop of `uart_init` (uart.c:238-255); `vers k` is the
version byte the peer returns to the `k`-th firmware-version round trip.
With `fuel = inittimeout + 1` the fuel never runs out, since the loop exits
when `inittimeout` reaches 0. -/
def uart_init_loop (vers : Nat → Nat) : Nat → InitState → Nat → Bool × InitState
  | fuel + 1, st, k =>
    let ver := vers k
    if ver ≠ 0 ∧ ver ≠ 255 then (true, st)
    else if st.inittimeout = 0 ∨ ver = 0 then
      (false, { st with spiOn := false, timerIrqOn := false })
    else
      uart_init_loop vers fuel { st with inittimeout := st.inittimeout - 1 } (k + 1)
  | 0, st, _ => (false, { st with spiOn := false, timerIrqOn := false })

/-- `uart_init()` (uart.c:201-259): refuse when already open; enable the SPI
link and the card-line interrupt; probe for a free timer; when one is found,
enable its interrupt and the timer itself and run the version-probe loop;
when none is found, fall through to `return false` with nothing disabled. -/
def uart_init (st : InitState) (busy : Nat → Bool) (vers : Nat → Nat) :
    Bool × InitState :=
  if st.timer ≠ UART_TIMER_OFF then (false, st)
  else
    let st1 := { st with spiOn := true, cardLineIrq := true }
    let t := probe_timer busy
    if t ≠ UART_TIMER_OFF then
      let st2 := { st1 with timer := t, timerIrqOn := true, timerOn := true }
      uart_init_loop vers (st2.inittimeout + 1) st2 0
    else
      (false, st1)

/-- A quiescent engine state: both buffers empty, no priority frame, no
watermarks, escape flag clear, timer 0 registered. -/
def cleanState : UartState where
  inBuf := []
  outMem := fun _ => 0
  out_head := 0
  out_size := 0
  prio_dest := false
  destMem := fun _ => 0
  prio_head := 0
  prio_irq_bytes := 0
  prio_size := 0
  water_high := 0
  water_low := 0
  water_send := false
  got_esc := false
  timer := 0
  timerOn := false

/-- A full out-queue of 256 untransmitted bytes, no priority frame active. -/
def prioOverflowState : UartState :=
  { cleanState with outMem := fun _ => 1, out_size := 256 }

/-- An engine mid-frame: priority frame of 3 bytes, 1 byte exchanged so far,
two ordinary bytes queued behind the frame. -/
def timeoutState : UartState :=
  { cleanState with outMem := fun _ => 2, prio_head := 1, prio_size := 3,
                    out_head := 1, out_size := 5 }

/-- Ten unread bytes, low watermark 5, high-water notice latched. -/
def lowWaterReadState : UartState :=
  { cleanState with inBuf := [1, 2, 3, 4, 5, 6, 7, 8, 9, 10],
                    water_high := 200, water_low := 5, water_send := true }

/-- A state about to cross the high watermark: 4 unread bytes, high
watermark 5, low watermark 2, notice not latched, escape flag set. -/
def wmHighState : UartState :=
  { cleanState with got_esc := true, water_high := 5, water_low := 2,
                    inBuf := [1, 2, 3, 4] }

/-- A state about to cross the low watermark on append: 1 unread byte, low
watermark 3, notice latched, escape flag set. -/
def wmLowState : UartState :=
  { cleanState with got_esc := true, water_high := 200, water_low := 3,
                    water_send := true, inBuf := [7] }

/-- Two unread in-bytes and four queued out-bytes. -/
def requeueState : UartState :=
  { cleanState with inBuf := [10, 20], out_size := 4 }

/-- A frame of 4 bytes with a reply destination, 2 bytes exchanged so far. -/
def captureState : UartState :=
  { cleanState with prio_dest := true, destMem := fun _ => 9,
                    prio_head := 2, prio_size := 4 }

/-- A full in-buffer (256 bytes) mid-escape. -/
def fullInState : UartState :=
  { cleanState with inBuf := List.replicate 256 3, got_esc := true }

/-- A quiescent state with the escape flag set. -/
def escState : UartState :=
  { cleanState with got_esc := true }

/-- The closed engine before any initialization. -/
def closedInit : InitState :=
  { spiOn := false, cardLineIrq := false, timerIrqOn := false,
    timerOn := false, timer := UART_TIMER_OFF, inittimeout := 10 }

/-! Projection lemmas: the hardware-facing steps (`sendStep`, `timer_start`,
`timer_stop`) and the priority enqueue touch only the fields they name; these
lemmas let the claim proofs see through them. -/

@[simp] theorem sendStep_inBuf (s : UartState) : (sendStep s).inBuf = s.inBuf := by
  unfold sendStep; split <;> rfl

@[simp] theorem sendStep_outMem (s : UartState) : (sendStep s).outMem = s.outMem := by
  unfold sendStep; split <;> rfl

@[simp] theorem sendStep_out_size (s : UartState) : (sendStep s).out_size = s.out_size := by
  unfold sendStep; split <;> rfl

@[simp] theorem sendStep_prio_dest (s : UartState) : (sendStep s).prio_dest = s.prio_dest := by
  unfold sendStep; split <;> rfl

@[simp] theorem sendStep_destMem (s : UartState) : (sendStep s).destMem = s.destMem := by
  unfold sendStep; split <;> rfl

@[simp] theorem sendStep_prio_head (s : UartState) : (sendStep s).prio_head = s.prio_head := by
  unfold sendStep; split <;> rfl

@[simp] theorem sendStep_prio_irq_bytes (s : UartState) :
    (sendStep s).prio_irq_bytes = s.prio_irq_bytes := by
  unfold sendStep; split <;> rfl

@[simp] theorem sendStep_prio_size (s : UartState) : (sendStep s).prio_size = s.prio_size := by
  unfold sendStep; split <;> rfl

@[simp] theorem sendStep_water_high (s : UartState) : (sendStep s).water_high = s.water_high := by
  unfold sendStep; split <;> rfl

@[simp] theorem sendStep_water_low (s : UartState) : (sendStep s).water_low = s.water_low := by
  unfold sendStep; split <;> rfl

@[simp] theorem sendStep_water_send (s : UartState) : (sendStep s).water_send = s.water_send := by
  unfold sendStep; split <;> rfl

@[simp] theorem sendStep_got_esc (s : UartState) : (sendStep s).got_esc = s.got_esc := by
  unfold sendStep; split <;> rfl

@[simp] theorem timer_start_inBuf (s : UartState) : (timer_start s).inBuf = s.inBuf := by
  unfold timer_start; split <;> rfl

@[simp] theorem timer_start_outMem (s : UartState) : (timer_start s).outMem = s.outMem := by
  unfold timer_start; split <;> rfl

@[simp] theorem timer_start_out_head (s : UartState) : (timer_start s).out_head = s.out_head := by
  unfold timer_start; split <;> rfl

@[simp] theorem timer_start_out_size (s : UartState) : (timer_start s).out_size = s.out_size := by
  unfold timer_start; split <;> rfl

@[simp] theorem timer_start_prio_dest (s : UartState) :
    (timer_start s).prio_dest = s.prio_dest := by
  unfold timer_start; split <;> rfl

@[simp] theorem timer_start_destMem (s : UartState) : (timer_start s).destMem = s.destMem := by
  unfold timer_start; split <;> rfl

@[simp] theorem timer_start_prio_head (s : UartState) :
    (timer_start s).prio_head = s.prio_head := by
  unfold timer_start; split <;> rfl

@[simp] theorem timer_start_prio_irq_bytes (s : UartState) :
    (timer_start s).prio_irq_bytes = s.prio_irq_bytes := by
  unfold timer_start; split <;> rfl

@[simp] theorem timer_start_prio_size (s : UartState) :
    (timer_start s).prio_size = s.prio_size := by
  unfold timer_start; split <;> rfl

@[simp] theorem timer_start_water_high (s : UartState) :
    (timer_start s).water_high = s.water_high := by
  unfold timer_start; split <;> rfl

@[simp] theorem timer_start_water_low (s : UartState) :
    (timer_start s).water_low = s.water_low := by
  unfold timer_start; split <;> rfl

@[simp] theorem timer_start_water_send (s : UartState) :
    (timer_start s).water_send = s.water_send := by
  unfold timer_start; split <;> rfl

@[simp] theorem timer_start_got_esc (s : UartState) : (timer_start s).got_esc = s.got_esc := by
  unfold timer_start; split <;> rfl

@[simp] theorem timer_stop_inBuf (s : UartState) : (timer_stop s).inBuf = s.inBuf := by
  unfold timer_stop; split <;> rfl

@[simp] theorem timer_stop_outMem (s : UartState) : (timer_stop s).outMem = s.outMem := by
  unfold timer_stop; split <;> rfl

@[simp] theorem timer_stop_out_head (s : UartState) : (timer_stop s).out_head = s.out_head := by
  unfold timer_stop; split <;> rfl

@[simp] theorem timer_stop_out_size (s : UartState) : (timer_stop s).out_size = s.out_size := by
  unfold timer_stop; split <;> rfl

@[simp] theorem timer_stop_prio_dest (s : UartState) : (timer_stop s).prio_dest = s.prio_dest := by
  unfold timer_stop; split <;> rfl

@[simp] theorem timer_stop_destMem (s : UartState) : (timer_stop s).destMem = s.destMem := by
  unfold timer_stop; split <;> rfl

@[simp] theorem timer_stop_prio_head (s : UartState) : (timer_stop s).prio_head = s.prio_head := by
  unfold timer_stop; split <;> rfl

@[simp] theorem timer_stop_prio_irq_bytes (s : UartState) :
    (timer_stop s).prio_irq_bytes = s.prio_irq_bytes := by
  unfold timer_stop; split <;> rfl

@[simp] theorem timer_stop_prio_size (s : UartState) : (timer_stop s).prio_size = s.prio_size := by
  unfold timer_stop; split <;> rfl

@[simp] theorem timer_stop_water_high (s : UartState) :
    (timer_stop s).water_high = s.water_high := by
  unfold timer_stop; split <;> rfl

@[simp] theorem timer_stop_water_low (s : UartState) :
    (timer_stop s).water_low = s.water_low := by
  unfold timer_stop; split <;> rfl

@[simp] theorem timer_stop_water_send (s : UartState) :
    (timer_stop s).water_send = s.water_send := by
  unfold timer_stop; split <;> rfl

@[simp] theorem timer_stop_got_esc (s : UartState) : (timer_stop s).got_esc = s.got_esc := by
  unfold timer_stop; split <;> rfl

@[simp] theorem uart_write_prio_inBuf (s : UartState) (buf : List Nat) (d : Bool) (irq : Nat) :
    (uart_write_prio s buf d irq).inBuf = s.inBuf := by
  simp only [uart_write_prio]; split <;> rfl

@[simp] theorem uart_write_prio_destMem (s : UartState) (buf : List Nat) (d : Bool) (irq : Nat) :
    (uart_write_prio s buf d irq).destMem = s.destMem := by
  simp only [uart_write_prio]; split <;> rfl

@[simp] theorem uart_write_prio_got_esc (s : UartState) (buf : List Nat) (d : Bool) (irq : Nat) :
    (uart_write_prio s buf d irq).got_esc = s.got_esc := by
  simp only [uart_write_prio]; split <;> rfl

@[simp] theorem uart_write_prio_water_high (s : UartState) (buf : List Nat) (d : Bool) (irq : Nat) :
    (uart_write_prio s buf d irq).water_high = s.water_high := by
  simp only [uart_write_prio]; split <;> rfl

@[simp] theorem uart_write_prio_water_low (s : UartState) (buf : List Nat) (d : Bool) (irq : Nat) :
    (uart_write_prio s buf d irq).water_low = s.water_low := by
  simp only [uart_write_prio]; split <;> rfl

@[simp] theorem uart_write_prio_water_send (s : UartState) (buf : List Nat) (d : Bool) (irq : Nat) :
    (uart_write_prio s buf d irq).water_send = s.water_send := by
  simp only [uart_write_prio]; split <;> rfl

@[simp] theorem doSpiStore_inBuf (s : UartState) (r : Nat) :
    (doSpiStore s r).inBuf = inAppend s.inBuf r := by
  simp only [doSpiStore]
  split <;> split <;> simp [send_watermark]

@[simp] theorem doSpiStore_got_esc (s : UartState) (r : Nat) :
    (doSpiStore s r).got_esc = s.got_esc := by
  simp only [doSpiStore]
  split <;> split <;> simp [send_watermark]

@[simp] theorem doSpiStore_destMem (s : UartState) (r : Nat) :
    (doSpiStore s r).destMem = s.destMem := by
  simp only [doSpiStore]
  split <;> split <;> simp [send_watermark]

@[simp] theorem doSpiFilter_destMem (s : UartState) (r : Nat) :
    (doSpiFilter s r).destMem = s.destMem := by
  unfold doSpiFilter
  split_ifs <;> simp

/-- C1, counterexample: the byte `0xFF` refutes the round-trip as claimed for
every byte: `uart_write` accepts it and places the single unescaped wire byte
`0xFF` in the OutboundBuffer, and the receive filter of `do_spi` then drops
that wire byte as no-cartridge noise, so nothing — not `0xFF` — is appended
to the Inbound Buffer. -/
theorem C1_counterexample :
    outContent (uart_write cleanState [255]).1 = [255] ∧
    (uart_write cleanState [255]).2 = 1 ∧
    (List.foldl do_spi cleanState [255]).inBuf = [] := by
  decide

/-- C2: evaluating `uart_write_prio` at a failing input: with 256 queued
untransmitted bytes and a 6-byte frame (the set-rate command size), the
overflow branch is taken and the resulting `out_size` is 262, exceeding the
total outbound capacity `UART_OUT_SIZE + UART_OUT_EMERG = 260` that the
claim says is never exceeded. -/
theorem C2_overflow_bug :
    (uart_write_prio prioOverflowState [92, 98, 0, 0, 7, 208] false 0).out_size = 262 ∧
    UART_OUT_SIZE + UART_OUT_EMERG <
      (uart_write_prio prioOverflowState [92, 98, 0, 0, 7, 208] false 0).out_size := by
  decide

/-- C4, counterexample: timing out with `prio_head = 1 < 3 = prio_size` sets
the transmit cursor to 3 (`prio_size`), not to 1, the offset of the first
unsent frame byte — so the unsent remainder is skipped, not retransmitted. -/
theorem C4_counterexample :
    timeoutState.prio_head < timeoutState.prio_size ∧
    (uart_wait_prio_timeout timeoutState).2.out_head = 3 ∧
    (uart_wait_prio_timeout timeoutState).2.out_head ≠ timeoutState.prio_head := by
  decide

/-- C5, counterexample: a read that takes occupancy (2) to at or below the
low watermark (5) while the notice is latched changes nothing but the
in-buffer: no low-water frame is enqueued and the latch stays set, refuting
the claim that the low-water notice fires after each read operation. -/
theorem C5_counterexample :
    (uart_read lowWaterReadState 8).1 = { lowWaterReadState with inBuf := [9, 10] } ∧
    (uart_read lowWaterReadState 8).1.inBuf.length ≤ lowWaterReadState.water_low ∧
    (uart_read lowWaterReadState 8).1.water_send = true :=
  ⟨rfl, by decide, rfl⟩

/-- C8: evaluating `uart_requeue` at a failing input: requeueing `[7]` before
unread `[10, 20]` succeeds but leaves the visible Inbound Buffer as
`[10, 10]` of length 2 (not `[7, 10, 20]` of length 3 as claimed) because
`in_size` is never grown, and instead corrupts the out-buffer: `7` is
written over its cell 0 and `out_size` grows from 4 to 5. -/
theorem C8_requeue_bug :
    (uart_requeue requeueState [7]).1 = true ∧
    (uart_requeue requeueState [7]).2.inBuf = [10, 10] ∧
    (uart_requeue requeueState [7]).2.inBuf.length = 2 ∧
    (uart_requeue requeueState [7]).2.out_size = 5 ∧
    (uart_requeue requeueState [7]).2.outMem 0 = 7 := by
  decide

/-- C9: evaluating `uart_init` at a failing input: with a free timer and a
peer that always answers version `0x00`, initialization fails hard but
leaves the card-line interrupt enabled and the timer registered (3, not
`UART_TIMER_OFF`), so the engine is not in the closed state and a subsequent
initialization is refused immediately without changing anything. -/
theorem C9_init_failure_unclean :
    (uart_init closedInit (fun _ => false) (fun _ => 0)).1 = false ∧
    (uart_init closedInit (fun _ => false) (fun _ => 0)).2.cardLineIrq = true ∧
    (uart_init closedInit (fun _ => false) (fun _ => 0)).2.timer = 3 ∧
    (uart_init closedInit (fun _ => false) (fun _ => 0)).2.timer ≠ UART_TIMER_OFF ∧
    (uart_init (uart_init closedInit (fun _ => false) (fun _ => 0)).2
        (fun _ => false) (fun _ => 0)).1 = false ∧
    (uart_init (uart_init closedInit (fun _ => false) (fun _ => 0)).2
        (fun _ => false) (fun _ => 0)).2 =
      (uart_init closedInit (fun _ => false) (fun _ => 0)).2 := by
  decide

/-- Characterization of the framing filter: what lands in the in-buffer and
the resulting escape state, as a function of the current escape state and
the received byte. -/
theorem doSpiFilter_inBuf_esc (a : UartState) (r : Nat) :
    (doSpiFilter a r).inBuf =
      (if a.got_esc = false ∧ r = 92 then a.inBuf
       else if a.got_esc = true then inAppend a.inBuf r
       else if r = 0 ∨ r = 255 then a.inBuf
       else inAppend a.inBuf r) ∧
    (doSpiFilter a r).got_esc =
      (if a.got_esc = false ∧ r = 92 then true
       else if a.got_esc = true then false
       else a.got_esc) := by
  unfold doSpiFilter
  split_ifs <;> simp_all

/-- Outside an active frame's reply region (no active frame, or the frame's
first two header bytes), `do_spi` treats the received byte exactly as the
framing filter run on the pre-call state does, as far as the in-buffer and
the escape state are concerned. -/
theorem do_spi_inBuf_esc (s : UartState) (r : Nat)
    (hp : ¬ (2 ≤ s.prio_head ∧ s.prio_head < s.prio_size)) :
    (do_spi s r).inBuf = (doSpiFilter s r).inBuf ∧
    (do_spi s r).got_esc = (doSpiFilter s r).got_esc := by
  by_cases hact : s.prio_head < s.prio_size
  · have h2 : s.prio_head < 2 := by omega
    by_cases htb : Nat.testBit s.prio_irq_bytes (s.prio_size - s.prio_head - 2)
    · have hu : do_spi s r =
          doSpiFilter { timer_stop (timer_start (sendStep s)) with
                        prio_head := (timer_stop (timer_start (sendStep s))).prio_head + 1 } r := by
        simp [do_spi, hact, h2, htb]
      rw [hu]
      rw [(doSpiFilter_inBuf_esc _ r).1, (doSpiFilter_inBuf_esc _ r).2,
          (doSpiFilter_inBuf_esc s r).1, (doSpiFilter_inBuf_esc s r).2]
      simp
    · have hu : do_spi s r =
          doSpiFilter { timer_start (sendStep s) with
                        prio_head := (timer_start (sendStep s)).prio_head + 1 } r := by
        simp [do_spi, hact, h2, htb]
      rw [hu]
      rw [(doSpiFilter_inBuf_esc _ r).1, (doSpiFilter_inBuf_esc _ r).2,
          (doSpiFilter_inBuf_esc s r).1, (doSpiFilter_inBuf_esc s r).2]
      simp
  · have hu : do_spi s r = doSpiFilter (timer_start (sendStep s)) r := by
      simp [do_spi, hact]
    rw [hu]
    rw [(doSpiFilter_inBuf_esc _ r).1, (doSpiFilter_inBuf_esc _ r).2,
        (doSpiFilter_inBuf_esc s r).1, (doSpiFilter_inBuf_esc s r).2]
    simp

/-- When no priority frame is active and the escape state is clear, an
incoming escape marker only sets the escape state. -/
theorem do_spi_marker_state (s : UartState)
    (hinact : s.prio_size ≤ s.prio_head) (hesc : s.got_esc = false) :
    do_spi s 92 = { timer_start (sendStep s) with got_esc := true } := by
  have hnact : ¬ s.prio_head < s.prio_size := by omega
  simp [do_spi, doSpiFilter, hnact, hesc]

/-- When no priority frame is active and the escape state is set, `do_spi`
clears the escape state and stores the byte. -/
theorem do_spi_escaped_state (s : UartState) (r : Nat)
    (hinact : s.prio_size ≤ s.prio_head) (hesc : s.got_esc = true) :
    do_spi s r = doSpiStore { timer_start (sendStep s) with got_esc := false } r := by
  have hnact : ¬ s.prio_head < s.prio_size := by omega
  simp [do_spi, doSpiFilter, hnact, hesc]

/-- When no priority frame is active and the escape state is clear, an
ordinary byte (not the marker, not noise) is stored. -/
theorem do_spi_plain_state (s : UartState) (r : Nat)
    (hinact : s.prio_size ≤ s.prio_head) (hesc : s.got_esc = false)
    (h92 : r ≠ 92) (h0 : r ≠ 0) (h255 : r ≠ 255) :
    do_spi s r = doSpiStore (timer_start (sendStep s)) r := by
  have hnact : ¬ s.prio_head < s.prio_size := by omega
  simp [do_spi, doSpiFilter, hnact, hesc, h92, h0, h255]

/-- With both watermarks configured to zero, the store step never fires a
notice: it only appends (evicting first when full). -/
theorem doSpiStore_no_watermark (s : UartState) (r : Nat)
    (hwh : s.water_high = 0) (hwl : s.water_low = 0) :
    doSpiStore s r = { s with inBuf := inAppend s.inBuf r } := by
  simp [doSpiStore, hwh, hwl]

@[simp] theorem memMove_zero (m : Int → Nat) (dst src : Int) : memMove m dst src 0 = m := by
  funext i
  unfold memMove
  rw [if_neg]
  omega

theorem memWrite_at (m : Int → Nat) (xs : List Nat) (i : Nat) (h : i < xs.length) :
    memWrite m 0 xs (i : Int) = xs.getD i 0 := by
  unfold memWrite
  rw [if_pos (by omega)]
  simp

theorem sendStep_eq_self (s : UartState) (h : ¬ s.out_head < s.out_size) : sendStep s = s := by
  unfold sendStep
  rw [if_neg h]

theorem inAppend_not_full (l : List Nat) (b : Nat) (h : l.length < UART_IN_SIZE) :
    inAppend l b = l ++ [b] := by
  unfold inAppend
  rw [if_neg (by omega)]

/-- C3: priority reply capture.  While a frame with a non-null reply
destination is active at offset `k = prio_head` with `2 ≤ k < prio_size`,
the received byte is written to the destination at position `k` (so the
destination's positions 0 and 1 are untouched), the byte is not appended to
the Inbound Buffer and never reaches the Framing Filter (the escape state is
untouched), and the sent-count advances; at frame offsets 0 and 1 nothing is
written to the destination. -/
theorem C3_priority_reply_capture (s t : UartState) (r : Nat)
    (hs2 : 2 ≤ s.prio_head) (hsz : s.prio_head < s.prio_size)
    (hd : s.prio_dest = true)
    (ht2 : t.prio_head < 2) (htsz : t.prio_head < t.prio_size) :
    (do_spi s r).destMem = Function.update s.destMem s.prio_head r ∧
    (do_spi s r).destMem s.prio_head = r ∧
    (do_spi s r).destMem 0 = s.destMem 0 ∧
    (do_spi s r).destMem 1 = s.destMem 1 ∧
    (do_spi s r).inBuf = s.inBuf ∧
    (do_spi s r).got_esc = s.got_esc ∧
    (do_spi s r).prio_head = s.prio_head + 1 ∧
    (do_spi t r).destMem = t.destMem := by
  have hns : ¬ s.prio_head < 2 := by omega
  have h0 : ¬ (0 : Nat) = s.prio_head := by omega
  have h1 : ¬ (1 : Nat) = s.prio_head := by omega
  refine ⟨?_, ?_, ?_, ?_, ?_, ?_, ?_, ?_⟩ <;>
    simp [do_spi, hsz, htsz, hns, hd, ht2, apply_ite, Function.update_apply, h0, h1]

/-- C3 witness: with a capturing frame at offset 2, the received byte 7 lands
in the destination at position 2 and the Inbound Buffer is untouched. -/
theorem C3_witness :
    2 ≤ captureState.prio_head ∧ (do_spi captureState 7).destMem 2 = 7 ∧
    (do_spi captureState 7).inBuf = captureState.inBuf :=
  ⟨by decide,
   (C3_priority_reply_capture captureState timeoutState 7 (by decide) (by decide)
      (by decide) (by decide) (by decide)).2.1,
   (C3_priority_reply_capture captureState timeoutState 7 (by decide) (by decide)
      (by decide) (by decide) (by decide)).2.2.2.2.1⟩

/-- C7: overflow eviction.  An append performed by the Exchange Engine on an
in-buffer holding exactly `UART_IN_SIZE = 256` bytes (here the byte is
accepted because the escape state is set) first evicts the
`UART_FIFO_BLOCK_SIZE = 8` oldest bytes, keeping the order of the rest, then
inserts the new byte: occupancy ends at `256 - 8 + 1 = 249`.  The byte is
never rejected. -/
theorem C7_overflow_eviction (s : UartState) (r : Nat)
    (hfull : s.inBuf.length = UART_IN_SIZE)
    (hesc : s.got_esc = true)
    (hprio : s.prio_size ≤ s.prio_head) :
    (do_spi s r).inBuf = s.inBuf.drop UART_FIFO_BLOCK_SIZE ++ [r] ∧
    (do_spi s r).inBuf.length = UART_IN_SIZE - UART_FIFO_BLOCK_SIZE + 1 := by
  have hnp : ¬ s.prio_head < s.prio_size := by omega
  have hstep : do_spi s r = doSpiStore { timer_start (sendStep s) with got_esc := false } r := by
    simp [do_spi, doSpiFilter, hnp, hesc]
  have hbuf : (do_spi s r).inBuf = inAppend s.inBuf r := by
    rw [hstep, doSpiStore_inBuf]; simp
  have happ : inAppend s.inBuf r = s.inBuf.drop UART_FIFO_BLOCK_SIZE ++ [r] := by
    unfold inAppend
    rw [if_pos hfull]
  refine ⟨hbuf.trans happ, ?_⟩
  rw [hbuf, happ]
  simp [hfull, UART_IN_SIZE, UART_FIFO_BLOCK_SIZE]

/-- C7 witness: appending to a full 256-byte in-buffer leaves 249 bytes. -/
theorem C7_witness :
    fullInState.inBuf.length = UART_IN_SIZE ∧
    (do_spi fullInState 5).inBuf.length = UART_IN_SIZE - UART_FIFO_BLOCK_SIZE + 1 :=
  ⟨by simp [fullInState, cleanState, UART_IN_SIZE],
   (C7_overflow_eviction fullInState 5
      (by simp [fullInState, cleanState, UART_IN_SIZE]) rfl (Nat.le_refl _)).2⟩

/-- C10: enqueuing a priority frame (of admissible length) while another
frame is still active unconditionally installs the new frame's bookkeeping —
reply destination, sent-count 0, suspend mask, length — and in particular a
watermark notice frame enqueued by `send_watermark` replaces the active
frame's bookkeeping with destination NULL, length 3, sent-count 0, so the
old frame's remaining reply bytes are no longer captured and a pending
`uart_wait_prio` tracks the new frame. -/
theorem C10_priority_overwrite (s : UartState) (buf : List Nat) (dest : Bool)
    (irq : Nat) (hw : Bool)
    (_hactive : s.prio_head < s.prio_size)
    (hsize : buf.length ≤ UART_OUT_SIZE + UART_OUT_EMERG) :
    (uart_write_prio s buf dest irq).prio_dest = dest ∧
    (uart_write_prio s buf dest irq).prio_head = 0 ∧
    (uart_write_prio s buf dest irq).prio_irq_bytes = irq ∧
    (uart_write_prio s buf dest irq).prio_size = buf.length ∧
    (send_watermark s hw).prio_dest = false ∧
    (send_watermark s hw).prio_size = 3 ∧
    (send_watermark s hw).prio_head = 0 := by
  have h : ¬ (UART_OUT_SIZE + UART_OUT_EMERG < buf.length) := by omega
  have h3 : ¬ (UART_OUT_SIZE + UART_OUT_EMERG < 3) := by
    simp [UART_OUT_SIZE, UART_OUT_EMERG]
  refine ⟨?_, ?_, ?_, ?_, ?_, ?_, ?_⟩ <;>
    simp [uart_write_prio, send_watermark, h, h3]

/-- C10 witness: a high-water notice fired while the 3-byte frame of
`timeoutState` is still active (1 of 3 bytes sent) replaces its bookkeeping. -/
theorem C10_witness :
    timeoutState.prio_head < timeoutState.prio_size ∧
    (send_watermark timeoutState true).prio_size = 3 ∧
    (uart_write_prio timeoutState [92, 118, 0] true 0).prio_dest = true :=
  ⟨by decide,
   (C10_priority_overwrite timeoutState [92, 118, 0] true 0 true (by decide)
      (by decide)).2.2.2.2.2.1,
   (C10_priority_overwrite timeoutState [92, 118, 0] true 0 true (by decide)
      (by decide)).1⟩

/-- C6: Framing Filter decode contract, for bytes processed outside an
active priority frame's reply region.  Escape state clear and byte `0x5C`:
consumed, escape state set, nothing appended.  Escape state set: any byte
(`r2` is unconstrained) appended verbatim, escape state cleared.  Escape
state clear and byte `0x00` or `0xFF`: nothing appended.  Otherwise: the
byte is appended verbatim and the escape state stays clear. -/
theorem C6_framing_filter (s t : UartState) (r r2 : Nat)
    (hs : s.got_esc = false) (ht : t.got_esc = true)
    (hsp : ¬ (2 ≤ s.prio_head ∧ s.prio_head < s.prio_size))
    (htp : ¬ (2 ≤ t.prio_head ∧ t.prio_head < t.prio_size))
    (h92 : r ≠ 92) (h0 : r ≠ 0) (h255 : r ≠ 255) :
    ((do_spi s 92).inBuf = s.inBuf ∧ (do_spi s 92).got_esc = true) ∧
    ((do_spi t r2).inBuf = inAppend t.inBuf r2 ∧ (do_spi t r2).got_esc = false) ∧
    ((do_spi s 0).inBuf = s.inBuf ∧ (do_spi s 0).got_esc = false) ∧
    ((do_spi s 255).inBuf = s.inBuf ∧ (do_spi s 255).got_esc = false) ∧
    ((do_spi s r).inBuf = inAppend s.inBuf r ∧ (do_spi s r).got_esc = false) := by
  have Ds92 := do_spi_inBuf_esc s 92 hsp
  have Dt := do_spi_inBuf_esc t r2 htp
  have Ds0 := do_spi_inBuf_esc s 0 hsp
  have Ds255 := do_spi_inBuf_esc s 255 hsp
  have Dsr := do_spi_inBuf_esc s r hsp
  rw [Ds92.1, Ds92.2, Dt.1, Dt.2, Ds0.1, Ds0.2, Ds255.1, Ds255.2, Dsr.1, Dsr.2,
      (doSpiFilter_inBuf_esc s 92).1, (doSpiFilter_inBuf_esc s 92).2,
      (doSpiFilter_inBuf_esc t r2).1, (doSpiFilter_inBuf_esc t r2).2,
      (doSpiFilter_inBuf_esc s 0).1, (doSpiFilter_inBuf_esc s 0).2,
      (doSpiFilter_inBuf_esc s 255).1, (doSpiFilter_inBuf_esc s 255).2,
      (doSpiFilter_inBuf_esc s r).1, (doSpiFilter_inBuf_esc s r).2]
  simp [hs, ht, h92, h0, h255]

/-- C6 witness: from a clean state, an ordinary byte (65) is appended and an
escaped byte (here 0, following a consumed marker) is appended, while an
unescaped 255 is dropped. -/
theorem C6_witness :
    cleanState.got_esc = false ∧ escState.got_esc = true ∧
    (do_spi escState 0).inBuf = inAppend escState.inBuf 0 ∧
    (do_spi cleanState 65).inBuf = inAppend cleanState.inBuf 65 ∧
    (do_spi cleanState 255).inBuf = cleanState.inBuf :=
  ⟨rfl, rfl,
   (C6_framing_filter cleanState escState 65 0 rfl rfl (by decide) (by decide)
      (by decide) (by decide) (by decide)).2.1.1,
   (C6_framing_filter cleanState escState 65 0 rfl rfl (by decide) (by decide)
      (by decide) (by decide) (by decide)).2.2.2.2.1,
   (C6_framing_filter cleanState escState 65 0 rfl rfl (by decide) (by decide)
      (by decide) (by decide) (by decide)).2.2.2.1.1⟩

/-- C1 (amended to exclude `0xFF`): escape round-trip.  Writing a single
byte `b ≠ 0xFF` into an empty out-queue places exactly its escaped form on
the wire — `[0x5C, b]` when `b` is `0x00` or `0x5C`, the single byte `b`
otherwise — the write reports one byte accepted, and running those wire
bytes through `do_spi` (no active priority frame, watermarks off, in-buffer
not full) appends exactly `b` to the Inbound Buffer. -/
theorem C1_escape_roundtrip (s t : UartState) (b : Nat)
    (hsh : s.out_head = 0) (hss : s.out_size = 0)
    (htesc : t.got_esc = false) (htp : t.prio_size ≤ t.prio_head)
    (hwh : t.water_high = 0) (hwl : t.water_low = 0)
    (hlen : t.inBuf.length < UART_IN_SIZE)
    (_hb : b < 256) (hbff : b ≠ 255) :
    outContent (uart_write s [b]).1 = (if b = 0 ∨ b = 92 then [92, b] else [b]) ∧
    (uart_write s [b]).2 = 1 ∧
    (List.foldl do_spi t (outContent (uart_write s [b]).1)).inBuf = t.inBuf ++ [b] := by
  have hcomp : uart_write s [b] = uart_write_loop s [b] := by
    unfold uart_write
    rw [if_neg (by omega)]
  by_cases hb0 : b = 0 ∨ b = 92
  · have hcap : ¬ (UART_OUT_SIZE < s.out_size + 2) := by
      simp [hss, UART_OUT_SIZE]
    have hw : uart_write s [b] =
        ({ s with outMem := memWrite s.outMem s.out_size [92, b],
                  out_size := s.out_size + 2 }, 1) := by
      rw [hcomp]
      simp [uart_write_loop, hb0, hcap]
    have hout : outContent (uart_write s [b]).1 = [92, b] := by
      rw [hw]
      simp only [outContent, hss]
      have hr2 : List.range (0 + 2) = [0, 1] := rfl
      rw [hr2]
      simp [memWrite]
    have hdec : (List.foldl do_spi t [92, b]).inBuf = t.inBuf ++ [b] := by
      have e1 : do_spi t 92 = { timer_start (sendStep t) with got_esc := true } :=
        do_spi_marker_state t htp htesc
      have e2 : do_spi { timer_start (sendStep t) with got_esc := true } b =
          doSpiStore
            { timer_start (sendStep { timer_start (sendStep t) with got_esc := true }) with
              got_esc := false } b :=
        do_spi_escaped_state _ b (by simpa using htp) rfl
      have e3 := doSpiStore_no_watermark
        { timer_start (sendStep { timer_start (sendStep t) with got_esc := true }) with
          got_esc := false } b (by simpa using hwh) (by simpa using hwl)
      show (do_spi (do_spi t 92) b).inBuf = t.inBuf ++ [b]
      rw [e1, e2, e3]
      simp [inAppend_not_full _ _ (by simpa using hlen)]
    rw [hout]
    refine ⟨by rw [if_pos hb0], by rw [hw], hdec⟩
  · push_neg at hb0
    have hcap : ¬ (UART_OUT_SIZE < s.out_size + 1) := by
      simp [hss, UART_OUT_SIZE]
    have hw : uart_write s [b] =
        ({ s with outMem := memWrite s.outMem s.out_size [b],
                  out_size := s.out_size + 1 }, 1) := by
      rw [hcomp]
      simp [uart_write_loop, hb0.1, hb0.2, hcap]
    have hout : outContent (uart_write s [b]).1 = [b] := by
      rw [hw]
      simp only [outContent, hss]
      have hr1 : List.range (0 + 1) = [0] := rfl
      rw [hr1]
      simp [memWrite]
    have hdec : (List.foldl do_spi t [b]).inBuf = t.inBuf ++ [b] := by
      have e1 : do_spi t b = doSpiStore (timer_start (sendStep t)) b :=
        do_spi_plain_state t b htp htesc hb0.2 hb0.1 hbff
      have e2 := doSpiStore_no_watermark (timer_start (sendStep t)) b
        (by simpa using hwh) (by simpa using hwl)
      show (do_spi t b).inBuf = t.inBuf ++ [b]
      rw [e1, e2]
      simp [inAppend_not_full _ _ (by simpa using hlen)]
    rw [hout]
    exact ⟨by rw [if_neg (by simp [hb0.1, hb0.2])], by rw [hw], hdec⟩

/-- C1 witness: the ordinary byte 65 goes over the wire unescaped and comes
back as exactly one appended byte. -/
theorem C1_witness :
    (65 : Nat) < 256 ∧ (65 : Nat) ≠ 255 ∧
    outContent (uart_write cleanState [65]).1 =
      (if (65 : Nat) = 0 ∨ (65 : Nat) = 92 then [92, 65] else [65]) ∧
    (List.foldl do_spi cleanState (outContent (uart_write cleanState [65]).1)).inBuf =
      cleanState.inBuf ++ [65] :=
  ⟨by decide, by decide,
   (C1_escape_roundtrip cleanState cleanState 65 rfl rfl rfl (Nat.le_refl _) rfl rfl
      (by decide) (by decide) (by decide)).1,
   (C1_escape_roundtrip cleanState cleanState 65 rfl rfl rfl (Nat.le_refl _) rfl rfl
      (by decide) (by decide) (by decide)).2.2⟩

/-- C4 (amended): when `uart_wait_prio` times out while the frame is
unfinished, the transmit cursor is set to `prio_size` — one past the frame —
so the unsent remainder is treated as already transmitted and skipped (the
buffer content and length are untouched, only the cursor moves), the
priority bookkeeping is cleared, the clock is forcibly re-armed, and the
call reports timedOut (`false`). -/
theorem C4_timeout_demotion (s : UartState)
    (_hact : s.prio_head < s.prio_size) (ht : s.timer ≠ UART_TIMER_OFF) :
    (uart_wait_prio_timeout s).1 = false ∧
    (uart_wait_prio_timeout s).2.out_head = s.prio_size ∧
    (uart_wait_prio_timeout s).2.prio_size = 0 ∧
    (uart_wait_prio_timeout s).2.prio_head = 0 ∧
    (uart_wait_prio_timeout s).2.timerOn = true ∧
    (uart_wait_prio_timeout s).2.outMem = s.outMem ∧
    (uart_wait_prio_timeout s).2.out_size = s.out_size := by
  refine ⟨rfl, ?_, ?_, ?_, ?_, ?_, ?_⟩ <;>
    simp [uart_wait_prio_timeout, timer_start, ht]

/-- C4 witness: the mid-frame state of `timeoutState` (1 of 3 frame bytes
sent) is cleaned up with the cursor at 3 and reports timedOut. -/
theorem C4_witness :
    timeoutState.prio_head < timeoutState.prio_size ∧
    (uart_wait_prio_timeout timeoutState).2.prio_size = 0 ∧
    (uart_wait_prio_timeout timeoutState).1 = false :=
  ⟨by decide,
   (C4_timeout_demotion timeoutState (by decide) (by decide)).2.2.1,
   (C4_timeout_demotion timeoutState (by decide) (by decide)).1⟩

/-- C5 (amended): watermark signaling is edge-triggered with the latch, but
both edges are evaluated by the Exchange Engine on each received-byte
append, comparing the occupancy the append will produce (`in_size + 1`);
reads never signal.  (a) An append reaching at least the high watermark with
the latch clear enqueues exactly one high-water frame `[0x5C,'w',0x01]` via
the Priority Channel and sets the latch; (b) an append at or below the low
watermark with the latch set enqueues exactly one low-water frame
`[0x5C,'w',0x00]` and clears the latch; (c) watermarks configured to zero
are never evaluated; (d) `uart_read` changes only the in-buffer — it never
enqueues a notice and never touches the latch. -/
theorem C5_watermark_edges (s1 s2 s3 s4 : UartState) (r1 r2 r3 n : Nat)
    (a1 : s1.got_esc = true) (a2 : s1.prio_size ≤ s1.prio_head)
    (a3 : 0 < s1.water_high) (a4 : s1.water_high ≤ s1.inBuf.length + 1)
    (a5 : s1.water_send = false) (a6 : s1.water_low < s1.water_high)
    (a7 : s1.out_head = s1.out_size)
    (b1 : s2.got_esc = true) (b2 : s2.prio_size ≤ s2.prio_head)
    (b3 : 0 < s2.water_low) (b4 : s2.inBuf.length + 1 ≤ s2.water_low)
    (b5 : s2.water_send = true) (b6 : s2.out_head = s2.out_size)
    (c1 : s3.got_esc = true) (c2 : s3.prio_size ≤ s3.prio_head)
    (c3 : s3.water_high = 0) (c4 : s3.water_low = 0) :
    ((do_spi s1 r1).water_send = true ∧ (do_spi s1 r1).prio_size = 3 ∧
     (do_spi s1 r1).prio_head = 0 ∧ (do_spi s1 r1).prio_dest = false ∧
     (do_spi s1 r1).out_size = 3 ∧ (do_spi s1 r1).outMem 0 = 92 ∧
     (do_spi s1 r1).outMem 1 = 119 ∧ (do_spi s1 r1).outMem 2 = 1) ∧
    ((do_spi s2 r2).water_send = false ∧ (do_spi s2 r2).prio_size = 3 ∧
     (do_spi s2 r2).out_size = 3 ∧ (do_spi s2 r2).outMem 0 = 92 ∧
     (do_spi s2 r2).outMem 1 = 119 ∧ (do_spi s2 r2).outMem 2 = 0) ∧
    ((do_spi s3 r3).water_send = s3.water_send ∧
     (do_spi s3 r3).outMem = s3.outMem ∧
     (do_spi s3 r3).out_size = s3.out_size ∧
     (do_spi s3 r3).prio_size = s3.prio_size) ∧
    ((uart_read s4 n).1.water_send = s4.water_send ∧
     (uart_read s4 n).1.outMem = s4.outMem ∧
     (uart_read s4 n).1.out_size = s4.out_size ∧
     (uart_read s4 n).1.prio_size = s4.prio_size ∧
     (uart_read s4 n).1.prio_head = s4.prio_head) := by
  have hg : ¬ (UART_OUT_SIZE + UART_OUT_EMERG < 3) := by
    simp [UART_OUT_SIZE, UART_OUT_EMERG]
  -- (a) high edge
  have hns1 : ¬ s1.out_head < s1.out_size := by omega
  have e1 := do_spi_escaped_state s1 r1 a2 a1
  rw [sendStep_eq_self s1 hns1] at e1
  have hnl : ¬ (s1.inBuf.length + 1 ≤ s1.water_low) := by omega
  -- (b) low edge
  have hns2 : ¬ s2.out_head < s2.out_size := by omega
  have f1 := do_spi_escaped_state s2 r2 b2 b1
  rw [sendStep_eq_self s2 hns2] at f1
  -- (c) disabled
  have g1 := do_spi_escaped_state s3 r3 c2 c1
  have g2 := doSpiStore_no_watermark
    { timer_start (sendStep s3) with got_esc := false } r3 (by simpa using c3)
    (by simpa using c4)
  refine ⟨⟨?_, ?_, ?_, ?_, ?_, ?_, ?_, ?_⟩, ⟨?_, ?_, ?_, ?_, ?_, ?_⟩,
          ⟨?_, ?_, ?_, ?_⟩, ⟨?_, ?_, ?_, ?_, ?_⟩⟩ <;>
    first
      | (rw [e1]
         simp [doSpiStore, send_watermark, uart_write_prio, hg, memWrite,
               a3, a4, a5, hnl, a7])
      | (rw [f1]
         simp [doSpiStore, send_watermark, uart_write_prio, hg, memWrite,
               b3, b4, b5, b6])
      | (rw [g1, g2]; simp)
      | simp [uart_read]

/-- C5 witness: crossing the high watermark from `wmHighState` fires one
high notice and sets the latch; crossing the low watermark from
`wmLowState` clears it; a read never touches the latch. -/
theorem C5_witness :
    0 < wmHighState.water_high ∧
    (do_spi wmHighState 7).water_send = true ∧
    (do_spi wmHighState 7).prio_size = 3 ∧
    (do_spi wmLowState 7).water_send = false ∧
    (uart_read lowWaterReadState 1).1.water_send = lowWaterReadState.water_send :=
  ⟨by decide,
   (C5_watermark_edges wmHighState wmLowState escState lowWaterReadState 7 7 7 1
      rfl (by decide) (by decide) (by decide) rfl (by decide) rfl
      rfl (by decide) (by decide) (by decide) rfl rfl
      rfl (by decide) rfl rfl).1.1,
   (C5_watermark_edges wmHighState wmLowState escState lowWaterReadState 7 7 7 1
      rfl (by decide) (by decide) (by decide) rfl (by decide) rfl
      rfl (by decide) (by decide) (by decide) rfl rfl
      rfl (by decide) rfl rfl).1.2.1,
   (C5_watermark_edges wmHighState wmLowState escState lowWaterReadState 7 7 7 1
      rfl (by decide) (by decide) (by decide) rfl (by decide) rfl
      rfl (by decide) (by decide) (by decide) rfl rfl
      rfl (by decide) rfl rfl).2.1.1,
   (C5_watermark_edges wmHighState wmLowState escState lowWaterReadState 7 7 7 1
      rfl (by decide) (by decide) (by decide) rfl (by decide) rfl
      rfl (by decide) (by decide) (by decide) rfl rfl
      rfl (by decide) rfl rfl).2.2.2.1⟩

end Uart
